import Mathlib

/-
Verification of the grading harness in secret_tests/driver.py.

The harness dynamically loads a student implementation of `VisitAnalyzer`,
runs a fixed registry of test cases against it, and appends a report block
to student_workspace/report.txt.  We embed the harness shallowly:

* pandas DataFrames become the `DataFrame` structure below (column names,
  column dtypes, row index, and a row-major grid of `Value` cells);
* numeric cells are modelled by exact rationals, NaN / None by `Value.na`
  and infinities by `Value.inf`;
* the seven comparison branches of the `elif` chain in `test_student_code`
  become the `Except String Unit` checks below (an `assert` failure or a
  pandas exception is an `Except.error` carrying the message);
* the student class is an abstract `StudentClass`: construction may fail,
  each method may be absent, and an invocation returns either a result
  table or an error, together with the text it printed to stdout;
* the filesystem (os.makedirs, append-mode write) is an explicit `FS`
  state, and sys.stdout redirection is an explicit `OutState` state.
-/

set_option autoImplicit false

deriving instance DecidableEq for Except

namespace Driver

attribute [local semireducible] Rat.add Rat.sub Rat.mul Rat.inv Rat.ofScientific

/-- A pandas cell: integer, float (exact rational), string, missing (None /
NaN) or an infinite float. -/
inductive Value where
  | i (n : ℤ)
  | f (q : ℚ)
  | s (t : String)
  | na
  | inf
deriving DecidableEq

/-- Python `==` on cells: numeric values compare across int/float, NaN is
treated as equal to NaN (the convention of pandas.testing.assert_frame_equal,
the one place the harness compares possibly-missing cells for equality). -/
def valEq : Value → Value → Bool
  | .i a, .i b => a == b
  | .i a, .f q => decide ((a : ℚ) = q)
  | .f q, .i a => decide (q = (a : ℚ))
  | .f p, .f q => p == q
  | .s a, .s b => a == b
  | .na, .na => true
  | .inf, .inf => true
  | _, _ => false

def isNa : Value → Bool
  | .na => true
  | _ => false

def isStr : Value → Bool
  | .s _ => true
  | _ => false

def isInf : Value → Bool
  | .inf => true
  | _ => false

/-- Numeric view of a cell, when it has one. -/
def toQ? : Value → Option ℚ
  | .i n => some (n : ℚ)
  | .f q => some q
  | _ => none

/-- A pandas DataFrame: named columns with dtypes, a row index, and rows of
cells (row-major). -/
structure DataFrame where
  columns : List String
  dtypes : List String
  index : List Nat
  rows : List (List Value)
deriving DecidableEq

/-- pd.DataFrame(rows, columns=cols): default RangeIndex. -/
def mkDF (cols dts : List String) (rows : List (List Value)) : DataFrame :=
  { columns := cols, dtypes := dts, index := List.range rows.length, rows := rows }

/-- Position of a column label (first occurrence), `none` = KeyError. -/
def colIndex (cols : List String) (c : String) : Option Nat :=
  match cols with
  | [] => none
  | x :: xs => if x == c then some 0 else (colIndex xs c).map (· + 1)

/-- Cell of a row at a column position. -/
def cellAt (r : List Value) (j : Nat) : Value :=
  r.getD j .na

/-- df.reset_index(drop=True). -/
def resetIndex (df : DataFrame) : DataFrame :=
  { df with index := List.range df.rows.length }

/-- df.isnull().values.any(). -/
def hasNull (df : DataFrame) : Bool :=
  df.rows.any fun r => r.any isNa

def rowEqV (r1 r2 : List Value) : Bool :=
  r1.length == r2.length && (r1.zip r2).all fun p => valEq p.1 p.2

/-- pd.testing.assert_frame_equal as a predicate, parametrised by
check_dtype: same columns, same index, same shape, and cellwise value
equality; dtypes are compared only when check_dtype is true. -/
def framesEqual (check_dtype : Bool) (a b : DataFrame) : Bool :=
  a.columns == b.columns &&
  (!check_dtype || a.dtypes == b.dtypes) &&
  a.index == b.index &&
  a.rows.length == b.rows.length &&
  (a.rows.zip b.rows).all fun p => rowEqV p.1 p.2

/-- Branch 1 (line 133): assert list(result.columns) == expected_cols. -/
def colsCheck (result : DataFrame) (expected : List String) : Except String Unit :=
  if result.columns == expected then .ok () else .error ""

/-- Branch 2 (line 135): pd.testing.assert_frame_equal(result.reset_index(drop=True),
expected.reset_index(drop=True), check_dtype=False). -/
def frameCheck (result expected : DataFrame) : Except String Unit :=
  if framesEqual false (resetIndex result) (resetIndex expected) then .ok ()
  else .error "DataFrame are different"

/-- numpy round-half-to-even on an exact rational, to integer. -/
def roundHalfEven (q : ℚ) : ℤ :=
  let fl := ⌊q⌋
  let frac := q - (fl : ℚ)
  if frac < 1/2 then fl
  else if 1/2 < frac then fl + 1
  else if fl % 2 = 0 then fl else fl + 1

/-- Series.round(2) on one numeric cell. -/
def round2 (q : ℚ) : ℚ := (roundHalfEven (q * 100) : ℚ) / 100

/-- np.allclose on a pair of scalars: |a - b| <= atol + rtol * |b| with the
numpy defaults rtol = 1e-5, atol = 1e-8; NaN and inf are never close to a
finite expected value. -/
def closeQ (a b : ℚ) : Bool :=
  decide (|a - b| ≤ 1/100000000 + (1/100000) * |b|)

def cellClose (v : Value) (b : ℚ) : Bool :=
  match v with
  | .i n => closeQ (n : ℚ) b
  | .f q => closeQ (round2 q) b
  | _ => false

/-- Branch 3 (lines 137-138): col = result["CostPerMinute"].round(2).tolist();
assert np.allclose(col, expected_values).  A missing column is a KeyError, a
string cell makes round raise, a length mismatch makes allclose raise. -/
def valuesCheck (result : DataFrame) (expected : List ℚ) : Except String Unit :=
  match colIndex result.columns "CostPerMinute" with
  | none => .error "KeyError: CostPerMinute"
  | some j =>
    let col := result.rows.map fun r => cellAt r j
    if col.any isStr then .error "TypeError: round on non-numeric column"
    else if col.length == expected.length &&
            (col.zip expected).all (fun p => cellClose p.1 p.2) then .ok ()
    else .error ""

/-- Branch 4 (lines 140-141): set(result["PatientID"].tolist()) ==
set(expected_ids). -/
def idsCheck (result : DataFrame) (expected : List ℤ) : Except String Unit :=
  match colIndex result.columns "PatientID" with
  | none => .error "KeyError: PatientID"
  | some j =>
    let ids := result.rows.map fun r => cellAt r j
    if (ids.all fun v => expected.any fun n => valEq v (.i n)) &&
       (expected.all fun n => ids.any fun v => valEq v (.i n)) then .ok ()
    else .error ""

/-- The "Average Duration" value of the first result row whose "Department"
cell equals the group, as a rational, when all lookups succeed. -/
def firstMatchAvg (df : DataFrame) (dept : String) : Option ℚ :=
  match colIndex df.columns "Department" with
  | none => none
  | some jD =>
    match colIndex df.columns "Average Duration" with
    | none => none
    | some jA =>
      match (df.rows.filter fun r => valEq (cellAt r jD) (.s dept)).head? with
      | none => none
      | some r => toQ? (cellAt r jA)

/-- One iteration of branch 5 (lines 143-145):
actual = result[result["Department"] == dept]["Average Duration"].values[0];
assert abs(actual - expected_avg) < 0.1. -/
def groupedAvgOne (result : DataFrame) (dept : String) (avg : ℚ) : Except String Unit :=
  match colIndex result.columns "Department" with
  | none => .error "KeyError: Department"
  | some jD =>
    match colIndex result.columns "Average Duration" with
    | none => .error "KeyError: Average Duration"
    | some jA =>
      match (result.rows.filter fun r => valEq (cellAt r jD) (.s dept)).head? with
      | none => .error "index 0 is out of bounds for axis 0 with size 0"
      | some r =>
        match toQ? (cellAt r jA) with
        | none => .error ""
        | some q => if |q - avg| < 1/10 then .ok () else .error ""

/-- Branch 5 (lines 142-145): the for-loop over expected_dict.items();
the first failing group raises. -/
def groupedAvgCheck (result : DataFrame) : List (String × ℚ) → Except String Unit
  | [] => .ok ()
  | p :: ps =>
    match groupedAvgOne result p.1 p.2 with
    | .ok _ => groupedAvgCheck result ps
    | .error e => .error e

/-- Whether row r may be placed before row-with-Charges-cell s in a
descending sort of the Charges column: NaN sorts last (na_position default),
infinity sorts above every finite value. -/
def descBefore : Value → Value → Bool
  | _, .na => true
  | .na, _ => false
  | .inf, _ => true
  | _, .inf => false
  | .i m, .i n => decide ((n : ℚ) ≤ (m : ℚ))
  | .i m, .f q => decide (q ≤ (m : ℚ))
  | .f p, .i n => decide ((n : ℚ) ≤ p)
  | .f p, .f q => decide (q ≤ p)
  | _, _ => false

def insertRowDesc (j : Nat) (r : List Value) : List (List Value) → List (List Value)
  | [] => [r]
  | s :: ss =>
    if descBefore (cellAt r j) (cellAt s j) then r :: s :: ss
    else s :: insertRowDesc j r ss

/-- result.sort_values(by="Charges", ascending=False) on the row list, with
the Charges column at position j. -/
def sortRowsDesc (j : Nat) : List (List Value) → List (List Value)
  | [] => []
  | r :: rs => insertRowDesc j r (sortRowsDesc j rs)

/-- The Charges cell of the first row of the descending sort, when the
column exists and sorting does not raise (a string cell mixed into the
column makes pandas comparison raise; an all-string column can never equal
the expected float afterwards, so both are folded into `none`). -/
def firstChargeDesc (df : DataFrame) : Option Value :=
  match colIndex df.columns "Charges" with
  | none => none
  | some j =>
    if (df.rows.map fun r => cellAt r j).any isStr then none
    else
      match sortRowsDesc j df.rows with
      | [] => none
      | r :: _ => some (cellAt r j)

/-- Branch 6 (lines 147-150): assert len(result) == expected_len; assert not
result.isnull().values.any(); top_charge = result.sort_values(by="Charges",
ascending=False).iloc[0]["Charges"]; assert top_charge == expected_top. -/
def lenTopCheck (result : DataFrame) (expLen : Nat) (expTop : ℚ) : Except String Unit :=
  if result.rows.length != expLen then .error ""
  else if hasNull result then .error ""
  else
    match colIndex result.columns "Charges" with
    | none => .error "KeyError: Charges"
    | some j =>
      if (result.rows.map fun r => cellAt r j).any isStr then .error "TypeError"
      else
        match sortRowsDesc j result.rows with
        | [] => .error "single positional indexer is out-of-bounds"
        | r :: _ => if valEq (cellAt r j) (.f expTop) then .ok () else .error ""

/-- Branch 7 (lines 152-153): assert not result["CostPerMinute"].isna().any();
assert not np.isinf(result["CostPerMinute"]).any(). -/
def infNanCheck (result : DataFrame) : Except String Unit :=
  match colIndex result.columns "CostPerMinute" with
  | none => .error "KeyError: CostPerMinute"
  | some j =>
    let col := result.rows.map fun r => cellAt r j
    if col.any isNa then .error ""
    else if col.any isInf then .error ""
    else .ok ()

/-- The expected-result descriptor of a scenario: exactly one of the keys
expected_cols / expected / expected_values / expected_ids / expected_dict /
expected_len+expected_top_charge / check_for_inf_or_nan. -/
inductive Expectation where
  | cols (expected : List String)
  | frame (expected : DataFrame)
  | values (expected : List ℚ)
  | ids (expected : List ℤ)
  | dict (pairs : List (String × ℚ))
  | lenTop (expLen : Nat) (expTop : ℚ)
  | infNan
deriving DecidableEq

/-- Dispatch of the elif chain (lines 132-153): each scenario declares
exactly one expectation, so the first matching branch is its branch. -/
def runCheck : Expectation → DataFrame → Except String Unit
  | .cols expected, result => colsCheck result expected
  | .frame expected, result => frameCheck result expected
  | .values expected, result => valuesCheck result expected
  | .ids expected, result => idsCheck result expected
  | .dict pairs, result => groupedAvgCheck result pairs
  | .lenTop n t, result => lenTopCheck result n t
  | .infNan, result => infNanCheck result

/-- A scenario input: a raw list of rows (TC1), a single table, or a
(table, threshold) tuple unpacked into two positional arguments. -/
inductive Input where
  | raw (rows : List (List Value))
  | table (df : DataFrame)
  | pair (df : DataFrame) (threshold : ℤ)
deriving DecidableEq

/-- One scenario record of the registry. -/
structure Case where
  id : String
  desc : String
  func : String
  input : Input
  expectation : Expectation
deriving DecidableEq

def visitCols : List String := ["PatientID", "Department", "Duration", "Charges"]

def case1 : Case :=
  { id := "TC1", desc := "Creating patient visit DataFrame", func := "create_visit_df",
    input := .raw [[.i 101, .s "Cardiology", .i 45, .f 1500],
                   [.i 102, .s "Neurology", .i 30, .f 1200]],
    expectation := .cols visitCols }

def tc2Input : DataFrame :=
  mkDF visitCols ["int64", "object", "int64", "float64"]
    [[.i 101, .s "Cardiology", .i 45, .f 1500],
     [.i 101, .s "Cardiology", .i 50, .f 1800]]

def tc2Expected : DataFrame :=
  mkDF ["PatientID", "Total Charges"] ["int64", "float64"] [[.i 101, .f 3300]]

def case2 : Case :=
  { id := "TC2", desc := "Computing total charges per patient",
    func := "total_charges_per_patient",
    input := .table tc2Input, expectation := .frame tc2Expected }

def tc3Input : DataFrame :=
  mkDF visitCols ["int64", "object", "int64", "float64"]
    [[.i 101, .s "Cardiology", .i 45, .f 1500],
     [.i 102, .s "Neurology", .i 30, .f 1200]]

def case3 : Case :=
  { id := "TC3", desc := "Adding cost per minute column", func := "add_cost_per_minute",
    input := .table tc3Input, expectation := .values [3333/100, 40] }

def tc4Input : DataFrame :=
  mkDF visitCols ["int64", "object", "int64", "float64"]
    [[.i 201, .s "Cardiology", .i 45, .f 1500],
     [.i 202, .s "Cardiology", .i 50, .f 1800],
     [.i 201, .s "Cardiology", .i 40, .f 1600],
     [.i 203, .s "Neurology", .i 30, .f 1200]]

def case4 : Case :=
  { id := "TC4", desc := "Filtering frequent visitors correctly", func := "frequent_visitors",
    input := .pair tc4Input 1, expectation := .ids [201] }

def tc5Input : DataFrame :=
  mkDF visitCols ["int64", "object", "int64", "float64"]
    [[.i 101, .s "Cardiology", .i 40, .f 1500],
     [.i 102, .s "Cardiology", .i 50, .f 1800],
     [.i 103, .s "Neurology", .i 30, .f 1200]]

def case5 : Case :=
  { id := "TC5", desc := "Calculating department-level average duration",
    func := "average_duration_per_department",
    input := .table tc5Input,
    expectation := .dict [("Cardiology", 45), ("Neurology", 30)] }

def htc1Input : DataFrame :=
  mkDF visitCols ["int64", "object", "float64", "float64"]
    [[.i 101, .s "Cardiology", .na, .f 1500],
     [.i 102, .s "Neurology", .f 30, .f 1700],
     [.i 103, .s "Ortho", .f 35, .f 1400],
     [.i 104, .s "Cardiology", .na, .f 1000],
     [.i 105, .s "Ortho", .f 32, .f 1300]]

def case6 : Case :=
  { id := "HTC1", desc := "Cleaning nulls and sorting by charges",
    func := "clean_and_sort_visits",
    input := .table htc1Input, expectation := .lenTop 3 1700 }

def htc2Input : DataFrame :=
  mkDF visitCols ["int64", "object", "int64", "float64"]
    [[.i 101, .s "Cardiology", .i 0, .f 1500],
     [.i 102, .s "Neurology", .i 30, .f 1200]]

def case7 : Case :=
  { id := "HTC2", desc := "Handling zero duration edge case in cost/min calc",
    func := "add_cost_per_minute",
    input := .table htc2Input, expectation := .infNan }

def htc3Input : DataFrame :=
  mkDF visitCols ["int64", "object", "int64", "int64"]
    [[.i 101, .s "A", .i 10, .i 100],
     [.i 102, .s "B", .i 20, .i 200],
     [.i 102, .s "C", .i 30, .i 300],
     [.i 103, .s "D", .i 40, .i 400]]

def case8 : Case :=
  { id := "HTC3", desc := "Correct filtering logic for visit frequency",
    func := "frequent_visitors",
    input := .pair htc3Input 1, expectation := .ids [102] }

/-- The static case registry (lines 26-119), in source order, each tagged
with its section label. -/
def test_cases : List (String × Case) :=
  [("Visible", case1), ("Visible", case2), ("Visible", case3), ("Visible", case4),
   ("Visible", case5), ("Hidden", case6), ("Hidden", case7), ("Hidden", case8)]

/-- A bound method of the student class: given the scenario input it either
returns a table or raises, and it may print text to stdout along the way. -/
def Method : Type := Input → Except String DataFrame × List String

/-- The student VisitAnalyzer object, abstractly: a method table.  A name
absent from the table is an AttributeError on lookup. -/
structure Analyzer where
  methods : String → Option Method

/-- The student class: calling `Analyzer()` either yields an instance or
raises. -/
structure StudentClass where
  construct : Except String Analyzer

/-- The guarded body of one loop iteration (lines 122-153): construct the
analyzer, resolve the method by name, invoke it with stdout suppressed
(the printed text, second component, is discarded), then run the scenario
check on the result. -/
def execCase (cls : StudentClass) (c : Case) : Except String Unit :=
  match cls.construct with
  | .error e => .error e
  | .ok a =>
    match a.methods c.func with
    | none => .error (String.append "VisitAnalyzer object has no attribute " c.func)
    | some m =>
      match (m c.input).1 with
      | .error e => .error e
      | .ok result => runCheck c.expectation result

def passMsg (c : Case) : String :=
  "✅ " ++ c.id ++ ": " ++ c.desc ++ " passed"

def failMsg (c : Case) (reason : String) : String :=
  "❌ " ++ c.id ++ ": " ++ c.desc ++ " failed | Reason: " ++ reason

/-- Lines 155-157: the try/except around one iteration turns the outcome
into a report line. -/
def runCase (cls : StudentClass) (c : Case) : String :=
  match execCase cls c with
  | .ok _ => passMsg c
  | .error e => failMsg c e

/-- The for-loop (lines 121-159): one report line per registry entry, in
registry order. -/
def runAll (cls : StudentClass) (cases : List (String × Case)) : List String :=
  cases.map fun sc => runCase cls sc.2

/-- A tiny filesystem: a set of existing directories and file contents. -/
structure FS where
  dirs : List String
  files : List (String × String)
deriving DecidableEq

/-- os.makedirs(d, exist_ok=True). -/
def makedirs (d : String) (fs : FS) : FS :=
  if fs.dirs.contains d then fs else { fs with dirs := d :: fs.dirs }

def lookupFile (p : String) (fs : FS) : Option String :=
  (fs.files.find? fun e => e.1 == p).map fun e => e.2

/-- open(p, "a") followed by f.write(content): append, creating the file
if absent. -/
def appendFile (p content : String) (fs : FS) : FS :=
  match lookupFile p fs with
  | some _ =>
    { fs with files := fs.files.map fun e => if e.1 == p then (e.1, e.2 ++ content) else e }
  | none => { fs with files := fs.files ++ [(p, content)] }

def reportDir : String := "student_workspace"

def reportPath : String := "student_workspace/report.txt"

/-- test_student_code (lines 14-162).  `load` is the outcome of lines 19-22
(spec_from_file_location / exec_module / the VisitAnalyzer attribute): on
error it propagates and the function aborts; `now` is the timestamp.  The
result is the list of report lines (also echoed to the console) or the
propagated load error, together with the filesystem after the run. -/
def test_student_code (load : Except String StudentClass) (now : String)
    (fs : FS) : Except String (List String) × FS :=
  let fs1 := makedirs reportDir fs
  match load with
  | .error e => (.error e, fs1)
  | .ok cls =>
    let header := "\n=== VisitAnalyzer Test Run at " ++ now ++ " ==="
    let lines := header :: runAll cls test_cases
    let fs2 := appendFile reportPath (String.intercalate "\n" lines ++ "\n") fs1
    (.ok lines, fs2)

/-- The state of sys.stdout: which sink is current (0 is the real stdout,
positive ids are StringIO buffers), the log of writes tagged with the sink
they went to, and a supply of fresh buffer ids. -/
structure OutState where
  current : Nat
  nextBuf : Nat
  written : List (Nat × String)

/-- print to the current sink. -/
def printTo (t : String) (st : OutState) : OutState :=
  { st with written := st.written ++ [(st.current, t)] }

/-- Everything ever written to a given sink. -/
def writtenTo (sink : Nat) (st : OutState) : List String :=
  (st.written.filter fun p => p.1 == sink).map fun p => p.2

/-- The suppress_output context manager (lines 9-12):
contextlib.redirect_stdout(StringIO()) swaps sys.stdout for a fresh buffer,
runs the body (whose exception, if any, is carried by the Except value),
and restores the saved sink on every exit path before re-raising. -/
def suppressOutput {α : Type} (body : OutState → Except String α × OutState)
    (st : OutState) : Except String α × OutState :=
  let saved := st.current
  let out := body { st with current := st.nextBuf, nextBuf := st.nextBuf + 1 }
  (out.1, { out.2 with current := saved })

/-- A student method as a stdout-writing computation: it prints its texts
to whatever sink is current, then returns its result or raises. -/
def methodRun {α : Type} (prints : List String) (res : Except String α)
    (st : OutState) : Except String α × OutState :=
  (res, prints.foldl (fun s t => printTo t s) st)

/-- Replace every method of the student class by one that prints nothing
but computes the same result. -/
def erasePrints (cls : StudentClass) : StudentClass :=
  { construct :=
      match cls.construct with
      | .error e => .error e
      | .ok a => .ok { methods := fun n => (a.methods n).map fun m => fun x => ((m x).1, []) } }

/-- Extend a table with extra rows appended below (modelling a student
result that contains additional department rows). -/
def addRows (df : DataFrame) (extra : List (List Value)) : DataFrame :=
  { df with rows := df.rows ++ extra }

/-- Extend a table with extra columns appended on the right, `ext` giving
the added cells of each row. -/
def addCols (df : DataFrame) (newCols : List String)
    (ext : List Value → List Value) : DataFrame :=
  { df with columns := df.columns ++ newCols,
            rows := df.rows.map fun r => r ++ ext r }

/-- Whether a row would be selected by result[result["Department"] == dept]. -/
def rowMatches (df : DataFrame) (r : List Value) (dept : String) : Bool :=
  match colIndex df.columns "Department" with
  | some jD => valEq (cellAt r jD) (.s dept)
  | none => false

/-- A student class whose constructor raises, used to witness C4. -/
def witCls : StudentClass := { construct := .error "boom" }

/-- A table whose columns permute the expected visit columns, to witness
C5. -/
def permDF : DataFrame := mkDF ["Department", "PatientID", "Duration", "Charges"] [] []

/-- An initial stdout state: real stdout current, one fresh buffer id
available, nothing written yet; witnesses C8. -/
def wOut : OutState := { current := 0, nextBuf := 1, written := [] }

/-- A grouped-average result whose Cardiology row deviates from 45.0 by
exactly 0.1; counterexample data for C2. -/
def cexAvgDF : DataFrame :=
  mkDF ["Department", "Average Duration"] ["object", "float64"]
    [[.s "Cardiology", .f (451/10)]]

/-- A grouped-average result within strict tolerance; witness data for C2. -/
def avgDF : DataFrame :=
  mkDF ["Department", "Average Duration"] ["object", "float64"]
    [[.s "Cardiology", .f 45], [.s "Neurology", .f (601/20)]]

/-- A small grouped-average result; witness data for C10. -/
def locDF : DataFrame :=
  mkDF ["Department", "Average Duration"] ["object", "float64"]
    [[.s "Cardiology", .f 45], [.s "Neurology", .f 30]]

/-- One-cell tables that differ in a value; witness data for C6. -/
def c6r : DataFrame := mkDF ["A"] ["int64"] [[.i 1]]

def c6e : DataFrame := mkDF ["A"] ["int64"] [[.i 2]]

/-- A clean three-row charges table with top charge 1700; witness data for
C7. -/
def c7df : DataFrame :=
  mkDF ["Charges"] ["float64"] [[.f 1400], [.f 1700], [.f 1300]]

/-- A table containing a missing value; witness data for C7. -/
def c7null : DataFrame := mkDF ["Charges"] ["float64"] [[.na]]

/-! Helper lemmas. -/

lemma makedirs_files (d : String) (fs : FS) : (makedirs d fs).files = fs.files := by
  unfold makedirs
  split <;> rfl

lemma makedirs_contains (d : String) (fs : FS) :
    (makedirs d fs).dirs.contains d = true := by
  unfold makedirs
  split
  · assumption
  · simp [List.contains_cons]

lemma makedirs_idem (d : String) (fs : FS) :
    makedirs d (makedirs d fs) = makedirs d fs := by
  by_cases h : d ∈ fs.dirs <;> simp [makedirs, h]

lemma runCase_of_error {cls : StudentClass} {c : Case} {e : String}
    (h : execCase cls c = .error e) : runCase cls c = failMsg c e := by
  unfold runCase
  rw [h]

lemma printsFoldl_current (prints : List String) (st : OutState) :
    (prints.foldl (fun s t => printTo t s) st).current = st.current := by
  induction prints generalizing st with
  | nil => rfl
  | cons p ps ih => simpa [printTo] using ih (printTo p st)

lemma printsFoldl_written (prints : List String) (st : OutState) :
    (prints.foldl (fun s t => printTo t s) st).written =
      st.written ++ prints.map fun t => (st.current, t) := by
  induction prints generalizing st with
  | nil => simp
  | cons p ps ih =>
    simp only [List.foldl_cons, List.map_cons]
    rw [ih (printTo p st)]
    simp [printTo]

lemma groupedAvgCheck_ok_iff (result : DataFrame) (pairs : List (String × ℚ)) :
    groupedAvgCheck result pairs = .ok () ↔
      ∀ p ∈ pairs, groupedAvgOne result p.1 p.2 = .ok () := by
  induction pairs with
  | nil => simp [groupedAvgCheck]
  | cons p ps ih =>
    unfold groupedAvgCheck
    cases hp : groupedAvgOne result p.1 p.2 with
    | ok u => cases u; simp [hp, ih]
    | error e => simp [hp]

lemma groupedAvgCheck_congr {a b : DataFrame} (pairs : List (String × ℚ))
    (h : ∀ p ∈ pairs, groupedAvgOne a p.1 p.2 = groupedAvgOne b p.1 p.2) :
    groupedAvgCheck a pairs = groupedAvgCheck b pairs := by
  induction pairs with
  | nil => rfl
  | cons p ps ih =>
    unfold groupedAvgCheck
    rw [h p (List.mem_cons_self p ps)]
    cases groupedAvgOne b p.1 p.2 with
    | ok u => exact ih fun q hq => h q (List.mem_cons_of_mem p hq)
    | error e => rfl

lemma colIndex_lt_length {cols : List String} {c : String} {j : Nat}
    (h : colIndex cols c = some j) : j < cols.length := by
  induction cols generalizing j with
  | nil => exact absurd h (by simp [colIndex])
  | cons x xs ih =>
    unfold colIndex at h
    by_cases hx : (x == c) = true
    · rw [if_pos hx] at h
      cases h
      simp
    · rw [if_neg hx] at h
      cases hj : colIndex xs c with
      | none => rw [hj] at h; exact absurd h (by simp)
      | some j0 =>
        rw [hj] at h
        simp only [Option.map_some'] at h
        cases h
        simpa using Nat.succ_lt_succ (ih hj)

lemma colIndex_append {cols cols2 : List String} {c : String} {j : Nat}
    (h : colIndex cols c = some j) : colIndex (cols ++ cols2) c = some j := by
  induction cols generalizing j with
  | nil => exact absurd h (by simp [colIndex])
  | cons x xs ih =>
    unfold colIndex at h
    rw [List.cons_append]
    show (if (x == c) = true then some 0
      else (colIndex (xs ++ cols2) c).map (· + 1)) = some j
    by_cases hx : (x == c) = true
    · rw [if_pos hx] at h ⊢; exact h
    · rw [if_neg hx] at h ⊢
      cases hj : colIndex xs c with
      | none => rw [hj] at h; exact absurd h (by simp)
      | some j0 =>
        rw [hj] at h
        rw [ih hj]
        exact h

lemma cellAt_append {r ext : List Value} {j : Nat} (h : j < r.length) :
    cellAt (r ++ ext) j = cellAt r j := by
  unfold cellAt
  exact List.getD_append r ext .na j h

lemma zip_get_mem {α β : Type} (l1 : List α) (l2 : List β) (i : Nat)
    (h1 : i < l1.length) (h2 : i < l2.length) :
    (l1.get ⟨i, h1⟩, l2.get ⟨i, h2⟩) ∈ l1.zip l2 := by
  have hlt : i < (l1.zip l2).length := by
    rw [List.length_zip]; exact lt_min h1 h2
  have hget : (l1.zip l2).get ⟨i, hlt⟩ = (l1.get ⟨i, h1⟩, l2.get ⟨i, h2⟩) := by
    simp [List.get_eq_getElem, List.getElem_zip]
  rw [← hget]
  exact List.get_mem _ _ _

lemma groupedAvgOne_addRows (df : DataFrame) (extra : List (List Value))
    (dept : String) (avg : ℚ)
    (h : ∀ r ∈ extra, rowMatches df r dept = false) :
    groupedAvgOne (addRows df extra) dept avg = groupedAvgOne df dept avg := by
  unfold groupedAvgOne addRows
  cases hD : colIndex df.columns "Department" with
  | none => simp [hD]
  | some jD =>
    simp only [hD]
    cases hA : colIndex df.columns "Average Duration" with
    | none => simp [hA]
    | some jA =>
      simp only [hA]
      have hfil : ((df.rows ++ extra).filter fun r => valEq (cellAt r jD) (.s dept)) =
          df.rows.filter fun r => valEq (cellAt r jD) (.s dept) := by
        rw [List.filter_append]
        have hnil : (extra.filter fun r => valEq (cellAt r jD) (.s dept)) = [] := by
          rw [List.filter_eq_nil_iff]
          intro r hr
          have hm := h r hr
          simp only [rowMatches, hD] at hm
          simp [hm]
        rw [hnil, List.append_nil]
      rw [hfil]

lemma groupedAvgOne_addCols (df : DataFrame) (newCols : List String)
    (ext : List Value → List Value) (dept : String) (avg : ℚ)
    (hD : (colIndex df.columns "Department").isSome = true)
    (hA : (colIndex df.columns "Average Duration").isSome = true)
    (hrect : ∀ r ∈ df.rows, r.length = df.columns.length) :
    groupedAvgOne (addCols df newCols ext) dept avg = groupedAvgOne df dept avg := by
  obtain ⟨jD, hjD⟩ := Option.isSome_iff_exists.mp hD
  obtain ⟨jA, hjA⟩ := Option.isSome_iff_exists.mp hA
  have hjDlt := colIndex_lt_length hjD
  have hjAlt := colIndex_lt_length hjA
  unfold groupedAvgOne addCols
  simp only [colIndex_append hjD, colIndex_append hjA, hjD, hjA]
  have hfil : ((df.rows.map fun r => r ++ ext r).filter
      fun r => valEq (cellAt r jD) (.s dept)) =
      (df.rows.filter fun r => valEq (cellAt r jD) (.s dept)).map
        fun r => r ++ ext r := by
    rw [List.filter_map]
    congr 1
    apply List.filter_congr
    intro r hr
    simp only [Function.comp_apply]
    rw [cellAt_append (by rw [hrect r hr]; exact hjDlt)]
  rw [hfil, List.head?_map]
  cases hh : (df.rows.filter fun r => valEq (cellAt r jD) (.s dept)).head? with
  | none => simp
  | some r0 =>
    have hr0 : r0 ∈ df.rows := by
      cases hfl : df.rows.filter fun r => valEq (cellAt r jD) (.s dept) with
      | nil => rw [hfl] at hh; exact absurd hh (by simp)
      | cons a as =>
        rw [hfl] at hh
        simp only [List.head?_cons, Option.some_inj] at hh
        have : r0 ∈ df.rows.filter fun r => valEq (cellAt r jD) (.s dept) := by
          rw [hfl, hh]; exact List.mem_cons_self r0 as
        exact List.mem_of_mem_filter this
    simp only [Option.map_some']
    rw [cellAt_append (by rw [hrect r0 hr0]; exact hjAlt)]

lemma framesEqual_cell_true {a b : DataFrame}
    (h : framesEqual false a b = true) (i j : Nat)
    (hi : i < a.rows.length) (hie : i < b.rows.length)
    (hj : j < (a.rows.get ⟨i, hi⟩).length) (hje : j < (b.rows.get ⟨i, hie⟩).length) :
    valEq ((a.rows.get ⟨i, hi⟩).get ⟨j, hj⟩) ((b.rows.get ⟨i, hie⟩).get ⟨j, hje⟩) = true := by
  unfold framesEqual at h
  simp only [Bool.and_eq_true, List.all_eq_true] at h
  have hall := h.2
  have hrow := hall _ (zip_get_mem a.rows b.rows i hi hie)
  unfold rowEqV at hrow
  simp only [Bool.and_eq_true, List.all_eq_true] at hrow
  exact hrow.2 _ (zip_get_mem _ _ j hj hje)

/-! Theorems settling the claims. -/

/-- C1 (counterexample): the registry does not hold nine scenarios — it has
eight entries (TC1-TC5 and HTC1-HTC3). -/
theorem C1_nine_scenarios_cex : test_cases.length ≠ 9 := by
  simp [test_cases]

/-- C1 (amended): the case registry is a static, ordered list of exactly
eight scenarios, the five Visible ones TC1-TC5 followed by the three Hidden
ones HTC1-HTC3, and this fixed order determines report order: the report is
exactly one line per registry entry, in registry order. -/
theorem C1_registry_amended (cls : StudentClass) :
    test_cases.length = 8 ∧
    (test_cases.map fun sc => sc.1) =
      ["Visible", "Visible", "Visible", "Visible", "Visible",
       "Hidden", "Hidden", "Hidden"] ∧
    (test_cases.map fun sc => sc.2.id) =
      ["TC1", "TC2", "TC3", "TC4", "TC5", "HTC1", "HTC2", "HTC3"] ∧
    runAll cls test_cases = test_cases.map fun sc => runCase cls sc.2 := by
  exact ⟨rfl, rfl, rfl, rfl⟩

/-- C3: when loading the student code fails (missing path, raising import,
or missing VisitAnalyzer attribute — all modelled by `load` being an error),
test_student_code propagates the error: no scenario executes, no report
lines are produced, and no file is written. -/
theorem C3_load_failure_aborts (e now : String) (fs : FS) :
    (test_student_code (.error e) now fs).1 = .error e ∧
    (test_student_code (.error e) now fs).2.files = fs.files := by
  exact ⟨rfl, makedirs_files reportDir fs⟩

/-- C9: directory creation happens before the load and is idempotent, so a
fatal load failure still leaves the report directory created while the
report file is untouched. -/
theorem C9_dir_created_before_load (e now : String) (fs : FS) :
    (test_student_code (.error e) now fs).2.dirs.contains reportDir = true ∧
    (test_student_code (.error e) now fs).2.files = fs.files ∧
    makedirs reportDir (makedirs reportDir fs) = makedirs reportDir fs := by
  exact ⟨makedirs_contains reportDir fs, makedirs_files reportDir fs,
    makedirs_idem reportDir fs⟩

/-- C4: any exception in the guarded per-scenario body (construction,
attribute resolution, invocation or comparison, all folded into execCase)
is caught individually and recorded as a Fail line carrying the original
message, while every other scenario still contributes exactly its own line:
the report always has one line per registry entry. -/
theorem C4_per_scenario_errors_isolated (cls : StudentClass)
    (pre post : List (String × Case)) (sc : String × Case) (e : String)
    (h : execCase cls sc.2 = .error e) :
    runAll cls (pre ++ sc :: post) =
      runAll cls pre ++ failMsg sc.2 e :: runAll cls post ∧
    ∀ cases : List (String × Case), (runAll cls cases).length = cases.length := by
  constructor
  · simp [runAll, runCase_of_error h]
  · intro cases
    simp [runAll]

/-- C4 (witness): with a constructor that raises, the lone scenario in the
middle is recorded as a Fail line with the original message and its
neighbours are unaffected. -/
theorem C4_witness :
    execCase witCls case1 = .error "boom" ∧
    runAll witCls ([] ++ ("Visible", case1) :: [("Hidden", case6)]) =
      runAll witCls [] ++ failMsg case1 "boom" :: runAll witCls [("Hidden", case6)] :=
  ⟨rfl, (C4_per_scenario_errors_isolated witCls [] [("Hidden", case6)]
    ("Visible", case1) "boom" rfl).1⟩

/-- C5: the column-set check passes exactly when the result's column names,
in order, equal the expected list, and any genuine reordering of the
expected columns fails it. -/
theorem C5_columns_order_sensitive (result : DataFrame) (expected : List String) :
    (colsCheck result expected = .ok () ↔ result.columns = expected) ∧
    (result.columns.Perm expected → result.columns ≠ expected →
      colsCheck result expected ≠ .ok ()) := by
  have h1 : colsCheck result expected = .ok () ↔ result.columns = expected := by
    unfold colsCheck
    by_cases h : result.columns = expected <;> simp [h]
  exact ⟨h1, fun _ hne hok => hne (h1.mp hok)⟩

/-- C5 (witness): a reordering of the expected columns fails the check. -/
theorem C5_witness :
    permDF.columns.Perm visitCols ∧ colsCheck permDF visitCols ≠ .ok () :=
  ⟨by decide, (C5_columns_order_sensitive permDF visitCols).2 (by decide) (by decide)⟩

/-- C8: during invocation the student method's prints go to a fresh buffer,
never to the original sink; the method's result (or exception) is passed
through unchanged; the original sink is restored on every exit path, even
for an arbitrary body; and the report is insensitive to what the methods
print. -/
theorem C8_output_suppressed (α : Type) (prints : List String)
    (res : Except String α) (st : OutState) (h : st.current ≠ st.nextBuf) :
    (suppressOutput (methodRun prints res) st).1 = res ∧
    (suppressOutput (methodRun prints res) st).2.current = st.current ∧
    writtenTo st.current (suppressOutput (methodRun prints res) st).2 =
      writtenTo st.current st ∧
    (∀ body : OutState → Except String α × OutState,
      (suppressOutput body st).2.current = st.current) ∧
    (∀ cls c, runCase (erasePrints cls) c = runCase cls c) := by
  refine ⟨rfl, rfl, ?_, fun body => rfl, ?_⟩
  · unfold suppressOutput methodRun writtenTo
    simp only []
    rw [printsFoldl_written]
    simp only [List.filter_append, List.map_append]
    have hfil : (List.map (fun t => (st.nextBuf, t)) prints).filter
        (fun p => p.1 == st.current) = [] := by
      rw [List.filter_eq_nil_iff]
      intro p hp
      rcases List.mem_map.mp hp with ⟨t, _, rfl⟩
      simpa using fun hh => h hh.symm
    rw [hfil]
    simp
  · intro cls c
    unfold runCase execCase erasePrints
    cases hcon : cls.construct with
    | error e => simp [hcon]
    | ok a =>
      simp only [hcon]
      cases hm : a.methods c.func with
      | none => simp [hm]
      | some m => simp [hm]

/-- C2 (counterexample): a result whose Cardiology average deviates from
the expected 45.0 by exactly 0.1 — tolerated according to the claim — is
rejected by the check, which requires abs(actual - expected) < 0.1
strictly. -/
theorem C2_tolerance_cex :
    |(451/10 : ℚ) - 45| ≤ 1/10 ∧
    groupedAvgCheck cexAvgDF [("Cardiology", 45)] ≠ .ok () := by
  constructor
  · decide
  · decide

/-- C2 (amended): the grouped-average check passes exactly when every
declared (group, expected average) pair passes individually, and a pair
whose first matching row holds the numeric value q passes exactly when the
absolute deviation |q - expected| is strictly below 0.1 — a deviation of
exactly 0.1 is rejected. -/
theorem C2_grouped_avg_strict (result : DataFrame) (pairs : List (String × ℚ)) :
    (groupedAvgCheck result pairs = .ok () ↔
      ∀ p ∈ pairs, groupedAvgOne result p.1 p.2 = .ok ()) ∧
    ∀ dept avg q, firstMatchAvg result dept = some q →
      (groupedAvgOne result dept avg = .ok () ↔ |q - avg| < 1/10) := by
  constructor
  · exact groupedAvgCheck_ok_iff result pairs
  · intro dept avg q hq
    cases hD : colIndex result.columns "Department" with
    | none => simp [firstMatchAvg, hD] at hq
    | some jD =>
      cases hA : colIndex result.columns "Average Duration" with
      | none => simp [firstMatchAvg, hD, hA] at hq
      | some jA =>
        cases hh : (result.rows.filter fun r => valEq (cellAt r jD) (.s dept)).head? with
        | none => simp [firstMatchAvg, hD, hA, hh] at hq
        | some r =>
          have hq2 : toQ? (cellAt r jA) = some q := by
            simpa [firstMatchAvg, hD, hA, hh] using hq
          simp only [groupedAvgOne, hD, hA, hh, hq2]
          by_cases hlt : |q - avg| < 1/10 <;> simp [hlt]

/-- C2 (witness): on a concrete result, the Neurology row holds 30.05, the
deviation 0.05 is strictly below 0.1, and the whole check passes. -/
theorem C2_witness :
    firstMatchAvg avgDF "Neurology" = some (601/20) ∧
    (groupedAvgOne avgDF "Neurology" 30 = .ok () ↔ |(601/20 : ℚ) - 30| < 1/10) ∧
    groupedAvgCheck avgDF [("Cardiology", 45), ("Neurology", 30)] = .ok () := by
  refine ⟨by decide, (C2_grouped_avg_strict avgDF []).2 "Neurology" 30 (601/20) (by decide), ?_⟩
  exact (C2_grouped_avg_strict avgDF [("Cardiology", 45), ("Neurology", 30)]).1.mpr (by decide)

/-- C8 (witness): a chattering method that then raises still has its error
passed through and the real stdout restored and unpolluted. -/
theorem C8_witness :
    wOut.current ≠ wOut.nextBuf ∧
    (suppressOutput (methodRun ["chatter"] (Except.error "boom" : Except String Nat)) wOut).1 =
      .error "boom" ∧
    (suppressOutput (methodRun ["chatter"] (Except.error "boom" : Except String Nat)) wOut).2.current =
      wOut.current ∧
    writtenTo wOut.current
      (suppressOutput (methodRun ["chatter"] (Except.error "boom" : Except String Nat)) wOut).2 =
      writtenTo wOut.current wOut := by
  have h := C8_output_suppressed Nat ["chatter"] (.error "boom") wOut (by decide)
  exact ⟨by decide, h.1, h.2.1, h.2.2.1⟩

/-- C6: the full-table equality check's verdict is invariant under the
result's row index and column dtypes (both tables are compared after a
reset_index(drop=True), with check_dtype=False), but a value difference in
any aligned cell makes it fail. -/
theorem C6_frame_equality_semantics (r e : DataFrame) (idx : List Nat) (dts : List String) :
    frameCheck { r with index := idx, dtypes := dts } e = frameCheck r e ∧
    ∀ i j (hi : i < r.rows.length) (hie : i < e.rows.length)
      (hj : j < (r.rows.get ⟨i, hi⟩).length) (hje : j < (e.rows.get ⟨i, hie⟩).length),
      valEq ((r.rows.get ⟨i, hi⟩).get ⟨j, hj⟩) ((e.rows.get ⟨i, hie⟩).get ⟨j, hje⟩) = false →
      frameCheck r e ≠ .ok () := by
  constructor
  · rfl
  · intro i j hi hie hj hje hne hok
    unfold frameCheck at hok
    split at hok
    case isFalse h => exact Except.noConfusion hok
    case isTrue hfe =>
      have h2 : valEq ((r.rows.get ⟨i, hi⟩).get ⟨j, hj⟩)
          ((e.rows.get ⟨i, hie⟩).get ⟨j, hje⟩) = true :=
        framesEqual_cell_true hfe i j hi hie hj hje
      rw [hne] at h2
      exact Bool.noConfusion h2

/-- C6 (witness): changing the index and dtypes leaves the verdict intact on
concrete tables, and a one-cell value difference makes the check fail. -/
theorem C6_witness :
    frameCheck { c6r with index := [5], dtypes := ["float64"] } c6e = frameCheck c6r c6e ∧
    frameCheck c6r c6e ≠ .ok () := by
  have h := C6_frame_equality_semantics c6r c6e [5] ["float64"]
  exact ⟨h.1, h.2 0 0 (by decide) (by decide) (by decide) (by decide) (by decide)⟩

/-- C7: the row-count-and-cleanliness check passes exactly when the result
has the expected number of rows, no missing value in any cell, and the
Charges value of the first row of the descending Charges sort equals the
expected top value; in particular any missing value anywhere makes it
fail. -/
theorem C7_len_top_clean (df : DataFrame) (n : Nat) (t : ℚ) :
    (lenTopCheck df n t = .ok () ↔
      df.rows.length = n ∧ hasNull df = false ∧
      ∃ v, firstChargeDesc df = some v ∧ valEq v (.f t) = true) ∧
    (hasNull df = true → lenTopCheck df n t ≠ .ok ()) := by
  have h1 : lenTopCheck df n t = .ok () ↔
      df.rows.length = n ∧ hasNull df = false ∧
      ∃ v, firstChargeDesc df = some v ∧ valEq v (.f t) = true := by
    unfold lenTopCheck firstChargeDesc
    by_cases hlen : df.rows.length = n
    · by_cases hnull : hasNull df = true
      · simp [hlen, hnull]
      · cases hc : colIndex df.columns "Charges" with
        | none => simp [hlen, hnull, hc]
        | some j =>
          by_cases hstr : ((df.rows.map fun r => cellAt r j).any isStr) = true
          · simp [hlen, hnull, hc, hstr]
          · cases hs : sortRowsDesc j df.rows with
            | nil => simp [hlen, hnull, hc, hstr, hs]
            | cons r rest =>
              by_cases hv : valEq (cellAt r j) (.f t) = true
              · simp [hlen, hnull, hc, hstr, hs, hv]
              · simp [hlen, hnull, hc, hstr, hs, hv]
    · simp [hlen]
  refine ⟨h1, fun hn hok => ?_⟩
  have hf := (h1.mp hok).2.1
  rw [hn] at hf
  exact Bool.noConfusion hf

/-- C7 (witness): a clean three-row table with top charge 1700 passes the
check for expected length 3, and a table containing a missing value is
rejected. -/
theorem C7_witness :
    lenTopCheck c7df 3 1700 = .ok () ∧
    hasNull c7null = true ∧ lenTopCheck c7null 1 1700 ≠ .ok () := by
  refine ⟨?_, by decide, ?_⟩
  · exact (C7_len_top_clean c7df 3 1700).1.mpr
      ⟨by decide, by decide, .f 1700, by decide, by decide⟩
  · exact (C7_len_top_clean c7null 1 1700).2 (by decide)

/-- C10: the grouped-average check only inspects, for each declared group,
the first result row whose Department equals that group: appending extra
rows for other departments and extra columns on the right leaves the
verdict unchanged, and the extended result still passes whenever each
declared pair passes on the original table. -/
theorem C10_grouped_avg_locality (df : DataFrame) (pairs : List (String × ℚ))
    (extra : List (List Value)) (newCols : List String) (ext : List Value → List Value)
    (hD : (colIndex df.columns "Department").isSome = true)
    (hA : (colIndex df.columns "Average Duration").isSome = true)
    (hrect : ∀ r ∈ df.rows, r.length = df.columns.length)
    (hextra : ∀ r ∈ extra, ∀ p ∈ pairs,
      rowMatches (addCols df newCols ext) r p.1 = false) :
    groupedAvgCheck (addRows (addCols df newCols ext) extra) pairs =
      groupedAvgCheck df pairs ∧
    ((∀ p ∈ pairs, groupedAvgOne df p.1 p.2 = .ok ()) →
      groupedAvgCheck (addRows (addCols df newCols ext) extra) pairs = .ok ()) := by
  have hstep1 : ∀ p ∈ pairs,
      groupedAvgOne (addRows (addCols df newCols ext) extra) p.1 p.2 =
      groupedAvgOne (addCols df newCols ext) p.1 p.2 := by
    intro p hp
    exact groupedAvgOne_addRows _ extra p.1 p.2 fun r hr => hextra r hr p hp
  have hstep2 : ∀ p ∈ pairs,
      groupedAvgOne (addCols df newCols ext) p.1 p.2 = groupedAvgOne df p.1 p.2 :=
    fun p _ => groupedAvgOne_addCols df newCols ext p.1 p.2 hD hA hrect
  have heq : groupedAvgCheck (addRows (addCols df newCols ext) extra) pairs =
      groupedAvgCheck df pairs := by
    rw [groupedAvgCheck_congr pairs hstep1, groupedAvgCheck_congr pairs hstep2]
  refine ⟨heq, fun hpass => ?_⟩
  rw [heq]
  exact (groupedAvgCheck_ok_iff df pairs).mpr hpass

/-- C10 (witness): adding an Oncology row and an extra column to a result
whose Cardiology and Neurology averages are exact still passes the check. -/
theorem C10_witness :
    groupedAvgCheck (addRows (addCols locDF ["Extra"] fun _ => [.i 7])
        [[.s "Oncology", .f 99, .i 8]])
      [("Cardiology", 45), ("Neurology", 30)] = .ok () := by
  have h := C10_grouped_avg_locality locDF [("Cardiology", 45), ("Neurology", 30)]
    [[.s "Oncology", .f 99, .i 8]] ["Extra"] (fun _ => [.i 7])
    (by decide) (by decide) (by decide) (by decide)
  exact h.2 (by decide)

end Driver
